import Mathlib

/-!
Shallow embedding of the rs-chip-8 interpreter core: the instruction decoder
(src/interp/opcode.rs) and the execution engine (src/interp/vm.rs).

Conventions of the embedding:
* Machine integers (u8, u16) are `Nat`, with explicit `% 256` / `% 2 ^ 16` /
  `% 2 ^ 64` exactly where the Rust code truncates.
* Rust's checked arithmetic on `u8`/`u16` (the `+`, `+=`, `-`, `-=` operators,
  which panic on overflow or underflow when overflow checks are enabled, the
  default debug profile) and panicking array indexing are modelled by returning
  `Option`: `none` stands for a panic.  An explicit bound test guards each
  array access and each checked operation, in the evaluation order of the
  Rust statement (right-hand side of an assignment first).
* The `anyhow::Result` error channel of `VM::execute` is never used by any
  handler in vm.rs (every handler either returns `Ok(())` or panics), so a
  handler's outcome is modelled as `Option VM`.
* Handlers whose body is `todo!()` (clearscreen, draw, key, skip_not_key,
  load_key, load_sprite, load_bcd) panic unconditionally: they are `none`.
* The decoder `TryFrom<u16> for OpCode` returns `Result<OpCode, String>`,
  modelled as `Except String OpCode` with the source's error strings.
* The operand wrapper structs `V(u8)`, `Byte(u8)`, `Addr(u16)` are plain
  newtypes over integers; their payloads are embedded directly as `Nat`.
* The random device is the third-party `random` crate's `Xorshift128Plus`,
  a deterministic two-word state machine; it is embedded as such (xorshift128+
  step over 64-bit words).  The claims about randomness only depend on the
  device being a deterministic state machine seeded by `VM::new`.
-/

namespace Chip8

/-- The instruction sum type of opcode.rs (`enum OpCode`), one constructor per
variant, operand payloads embedded as `Nat`. -/
inductive OpCode where
  | System (nnn : Nat)
  | ClearScreen
  | Return
  | Jump (nnn : Nat)
  | Call (nnn : Nat)
  | SkipEqual (x kk : Nat)
  | SkipNotEqual (x kk : Nat)
  | SkipEqualRegister (x y : Nat)
  | Load (x kk : Nat)
  | Add (x kk : Nat)
  | LoadRegister (x y : Nat)
  | OrRegister (x y : Nat)
  | AndRegister (x y : Nat)
  | XorRegister (x y : Nat)
  | AddRegister (x y : Nat)
  | SubRegister (x y : Nat)
  | ShrRegister (x y : Nat)
  | SubNotBorrowRegister (x y : Nat)
  | ShlRegister (x y : Nat)
  | SkipNotEqualRegister (x y : Nat)
  | Set (nnn : Nat)
  | JumpV0 (nnn : Nat)
  | Random (x kk : Nat)
  | Draw (x y n : Nat)
  | SkipKey (x : Nat)
  | SkipNotKey (x : Nat)
  | LoadDelayTimer (x : Nat)
  | LoadKey (x : Nat)
  | SetDelayTimer (x : Nat)
  | SetSoundTimer (x : Nat)
  | AddI (x : Nat)
  | LoadSprite (x : Nat)
  | LoadBCD (x : Nat)
  | SaveRegisters (x : Nat)
  | LoadRegisters (x : Nat)
  deriving DecidableEq, Repr

/-- The decoder `impl TryFrom<u16> for OpCode`, opcode.rs lines 224-296,
embedded statement by statement with the source's field extractions (including
its mask constants exactly as written) and its error strings.  `value` is the
16-bit instruction word; `% 256` models each `as u8` cast. -/
def tryFrom (value : Nat) : Except String OpCode :=
  let first := (value >>> (3 * 4)) % 256
  let second := ((value &&& 0x0100) >>> (2 * 4)) % 256
  let thrid := ((value &&& 0x0010) >>> 4) % 256
  let fourth := (value &&& 0x001) % 256
  let nnn := value &&& 0x0111
  let kk := (value &&& 0x0011) % 256
  if first = 0x00 then
    if value = 0x00E0 then Except.ok OpCode.ClearScreen
    else if value = 0x00EE then Except.ok OpCode.Return
    else Except.ok (OpCode.System nnn)
  else if first = 0x01 then Except.ok (OpCode.Jump nnn)
  else if first = 0x02 then Except.ok (OpCode.Call nnn)
  else if first = 0x03 then Except.ok (OpCode.SkipEqual second kk)
  else if first = 0x04 then Except.ok (OpCode.SkipNotEqual second kk)
  else if first = 0x05 then
    if fourth ≠ 0 then Except.error ("fourth not zero")
    else Except.ok (OpCode.SkipEqualRegister second thrid)
  else if first = 0x06 then Except.ok (OpCode.Load second kk)
  else if first = 0x07 then Except.ok (OpCode.Add second kk)
  else if first = 0x08 then
    if fourth = 0x00 then Except.ok (OpCode.LoadRegister second thrid)
    else if fourth = 0x01 then Except.ok (OpCode.OrRegister second thrid)
    else if fourth = 0x02 then Except.ok (OpCode.AndRegister second thrid)
    else if fourth = 0x03 then Except.ok (OpCode.XorRegister second thrid)
    else if fourth = 0x04 then Except.ok (OpCode.AddRegister second thrid)
    else if fourth = 0x05 then Except.ok (OpCode.SubRegister second thrid)
    else if fourth = 0x06 then Except.ok (OpCode.ShrRegister second thrid)
    else if fourth = 0x07 then Except.ok (OpCode.SubNotBorrowRegister second thrid)
    else if fourth = 0x0E then Except.ok (OpCode.ShlRegister second thrid)
    else Except.error ("0x8xx fail")
  else if first = 0x09 then
    if fourth ≠ 0 then Except.error ("fourth is not zero")
    else Except.ok (OpCode.SkipNotEqualRegister second thrid)
  else if first = 0x0a then Except.ok (OpCode.Set nnn)
  else if first = 0x0b then Except.ok (OpCode.JumpV0 nnn)
  else if first = 0x0c then Except.ok (OpCode.Random second kk)
  else if first = 0x0d then Except.ok (OpCode.Draw second thrid fourth)
  else if first = 0x0e then
    if kk = 0x9e then Except.ok (OpCode.SkipKey second)
    else if kk = 0xa1 then Except.ok (OpCode.SkipNotKey second)
    else Except.error ("neither Ex9E nor ExA1")
  else if first = 0x0f then
    if kk = 0x07 then Except.ok (OpCode.LoadDelayTimer second)
    else if kk = 0x0a then Except.ok (OpCode.LoadKey second)
    else if kk = 0x15 then Except.ok (OpCode.SetDelayTimer second)
    else if kk = 0x18 then Except.ok (OpCode.SetSoundTimer second)
    else if kk = 0x1e then Except.ok (OpCode.AddI second)
    else if kk = 0x29 then Except.ok (OpCode.LoadSprite second)
    else if kk = 0x33 then Except.ok (OpCode.LoadBCD second)
    else if kk = 0x55 then Except.ok (OpCode.SaveRegisters second)
    else if kk = 0x65 then Except.ok (OpCode.LoadRegisters second)
    else Except.error ("0xfxx fail")
  else Except.error ("first value fail")

/-- Pointwise update of an array modelled as a function. -/
def upd (f : Nat → Nat) (k v : Nat) : Nat → Nat := fun a => if a = k then v else f a

theorem upd_same (f : Nat → Nat) (k v : Nat) : upd f k v k = v := by simp [upd]

theorem upd_other (f : Nat → Nat) (k v a : Nat) (h : a ≠ k) : upd f k v a = f a := by
  simp [upd, h]

/-- vm.rs `const MEMORY_BYTES: usize = 4096`. -/
def MEMORY_BYTES : Nat := 4096

/-- vm.rs `const REGISTER_COUNT: usize = 16`. -/
def REGISTER_COUNT : Nat := 16

/-- vm.rs `const STACK_LENGTH: usize = 16`. -/
def STACK_LENGTH : Nat := 16

/-- The `random` crate's `Xorshift128Plus` source held by the VM: two 64-bit
state words. -/
structure Xorshift128Plus where
  s0 : Nat
  s1 : Nat
  deriving DecidableEq, Repr

/-- One `read::<u8>()` draw from the xorshift128+ source: the standard
xorshift128+ step over 64-bit words, the output truncated to a byte by the
`as u8` conversion of the crate's `Value` impl for `u8`.  Returns the byte
and the advanced device. -/
def Xorshift128Plus.readU8 (g : Xorshift128Plus) : Nat × Xorshift128Plus :=
  let x := g.s0
  let y := g.s1
  let x2 := x ^^^ ((x <<< 23) % 2 ^ 64)
  let s1b := x2 ^^^ y ^^^ (x2 >>> 17) ^^^ (y >>> 26)
  ((s1b + y) % 2 ^ 64 % 256, ⟨y, s1b⟩)

/-- `random::default(seed)`: the crate's construction of a seeded
`Xorshift128Plus` device from one 64-bit seed. -/
def randomDefault (seed : Nat) : Xorshift128Plus :=
  ⟨seed % 2 ^ 64, seed % 2 ^ 64⟩

/-- vm.rs `struct Pheriphal`: the peripherals owned by the VM, here only the
boxed random device. -/
structure Pheriphal where
  random_device : Xorshift128Plus
  deriving DecidableEq, Repr

/-- vm.rs `struct VM`: 4096-byte memory, 16 8-bit registers, index register I,
delay and sound timers, program counter, stack pointer, 16-slot stack of
return addresses, and the peripherals.  Arrays are functions from index to
cell value; every access in the operations below is bounds-checked against
the array length, modelling Rust's panicking indexing. -/
structure VM where
  memory : Nat → Nat
  registers : Nat → Nat
  i : Nat
  dt : Nat
  st : Nat
  pc : Nat
  sp : Nat
  stack : Nat → Nat
  pheriphal : Pheriphal

/-- `VM::new`, vm.rs lines 79-96: zeroed state, random device seeded with the
fixed constant 42. -/
def VM.new : VM where
  memory := fun _ => 0
  registers := fun _ => 0
  i := 0
  dt := 0
  st := 0
  pc := 0
  sp := 0
  stack := fun _ => 0
  pheriphal := ⟨randomDefault 42⟩

/-- `VM::system` (0nnn): ignored by modern interpreters, returns Ok. -/
def VM.system (vm : VM) (_nnn : Nat) : Option VM := some vm

/-- `VM::clearscreen` (00E0): `todo!()`, panics. -/
def VM.clearscreen (_vm : VM) : Option VM := none

/-- `VM::execute_return` (00EE), vm.rs lines 157-166: `pc = stack[sp]`
(indexing panics if sp is out of the 16-slot range), then `sp -= 1`
(checked u8 subtraction, panics on underflow when sp = 0). -/
def VM.execute_return (vm : VM) : Option VM :=
  if vm.sp < STACK_LENGTH then
    let pc2 := vm.stack vm.sp
    if 1 ≤ vm.sp then some { vm with pc := pc2, sp := vm.sp - 1 } else none
  else none

/-- `VM::jump` (1nnn): `pc = nnn`. -/
def VM.jump (vm : VM) (nnn : Nat) : Option VM := some { vm with pc := nnn }

/-- `VM::execute_call` (2nnn), vm.rs lines 177-187: `sp += 1` (checked u8
addition), `stack[sp] = pc` (indexing panics if the new sp is ≥ 16), then
`pc = nnn`.  No stack-depth fault is ever constructed. -/
def VM.execute_call (vm : VM) (nnn : Nat) : Option VM :=
  if vm.sp + 1 < 256 then
    let sp2 := vm.sp + 1
    if sp2 < STACK_LENGTH then
      some { vm with sp := sp2, stack := upd vm.stack sp2 vm.pc, pc := nnn }
    else none
  else none

/-- `VM::skip_equal` (3xkk): if Vx = kk then `pc += 2` (checked u16 add). -/
def VM.skip_equal (vm : VM) (x kk : Nat) : Option VM :=
  if x < REGISTER_COUNT then
    if vm.registers x = kk then
      if vm.pc + 2 < 2 ^ 16 then some { vm with pc := vm.pc + 2 } else none
    else some vm
  else none

/-- `VM::skip_not_equal` (4xkk). -/
def VM.skip_not_equal (vm : VM) (x kk : Nat) : Option VM :=
  if x < REGISTER_COUNT then
    if vm.registers x ≠ kk then
      if vm.pc + 2 < 2 ^ 16 then some { vm with pc := vm.pc + 2 } else none
    else some vm
  else none

/-- `VM::skip_equal_register` (5xy0). -/
def VM.skip_equal_register (vm : VM) (x y : Nat) : Option VM :=
  if x < REGISTER_COUNT then
    if y < REGISTER_COUNT then
      if vm.registers x = vm.registers y then
        if vm.pc + 2 < 2 ^ 16 then some { vm with pc := vm.pc + 2 } else none
      else some vm
    else none
  else none

/-- `VM::load` (6xkk): `registers[x] = kk`. -/
def VM.load (vm : VM) (x kk : Nat) : Option VM :=
  if x < REGISTER_COUNT then
    some { vm with registers := upd vm.registers x kk }
  else none

/-- `VM::add` (7xkk), vm.rs lines 232-239: `registers[x] += kk`, a checked u8
addition that panics on overflow; no flag is touched. -/
def VM.add (vm : VM) (x kk : Nat) : Option VM :=
  if x < REGISTER_COUNT then
    if vm.registers x + kk < 256 then
      some { vm with registers := upd vm.registers x (vm.registers x + kk) }
    else none
  else none

/-- `VM::load_register` (8xy0): `registers[x] = registers[y]`. -/
def VM.load_register (vm : VM) (x y : Nat) : Option VM :=
  if y < REGISTER_COUNT then
    if x < REGISTER_COUNT then
      some { vm with registers := upd vm.registers x (vm.registers y) }
    else none
  else none

/-- `VM::or_register` (8xy1). -/
def VM.or_register (vm : VM) (x y : Nat) : Option VM :=
  if x < REGISTER_COUNT then
    if y < REGISTER_COUNT then
      some { vm with registers := upd vm.registers x (vm.registers x ||| vm.registers y) }
    else none
  else none

/-- `VM::and_register` (8xy2). -/
def VM.and_register (vm : VM) (x y : Nat) : Option VM :=
  if x < REGISTER_COUNT then
    if y < REGISTER_COUNT then
      some { vm with registers := upd vm.registers x (vm.registers x &&& vm.registers y) }
    else none
  else none

/-- `VM::xor_register` (8xy3). -/
def VM.xor_register (vm : VM) (x y : Nat) : Option VM :=
  if x < REGISTER_COUNT then
    if y < REGISTER_COUNT then
      some { vm with registers := upd vm.registers x (vm.registers x ^^^ vm.registers y) }
    else none
  else none

/-- `VM::add_register` (8xy4), vm.rs lines 283-296: widen both operands to
u16, add, set VF to 1 if the sum exceeds 255 else 0, then store the sum
truncated to u8 (`as u8` = `% 256`) into Vx.  The flag write happens before
the result write. -/
def VM.add_register (vm : VM) (x y : Nat) : Option VM :=
  if x < REGISTER_COUNT then
    if y < REGISTER_COUNT then
      let r := vm.registers x + vm.registers y
      let regs1 := upd vm.registers 0x0f (if 255 < r then 1 else 0)
      some { vm with registers := upd regs1 x (r % 256) }
    else none
  else none

/-- `VM::sub_register` (8xy5), vm.rs lines 298-310: set VF to 1 if Vx > Vy
else 0, then `registers[x] = registers[x] - registers[y]` — the operands are
re-read after the flag write, and the subtraction is the checked u8 `-`,
which panics on underflow. -/
def VM.sub_register (vm : VM) (x y : Nat) : Option VM :=
  if x < REGISTER_COUNT then
    if y < REGISTER_COUNT then
      let regs1 := upd vm.registers 0x0f (if vm.registers y < vm.registers x then 1 else 0)
      if regs1 y ≤ regs1 x then
        some { vm with registers := upd regs1 x (regs1 x - regs1 y) }
      else none
    else none
  else none

/-- `VM::shr_register` (8xy6), vm.rs lines 312-324: set VF to 1 if the low
bit of Vx is 1 else 0, then `registers[x] = registers[x] >> 1`, Vx re-read
after the flag write.  The co-operand y is unused. -/
def VM.shr_register (vm : VM) (x _y : Nat) : Option VM :=
  if x < REGISTER_COUNT then
    let regs1 := upd vm.registers 0x0f (if vm.registers x &&& 0b00000001 = 1 then 1 else 0)
    some { vm with registers := upd regs1 x (regs1 x >>> 1) }
  else none

/-- `VM::sub_not_borrow_register` (8xy7), vm.rs lines 326-338: set VF to 1 if
Vy > Vx else 0, then `registers[x] = registers[y] - registers[x]`, operands
re-read after the flag write, checked u8 subtraction. -/
def VM.sub_not_borrow_register (vm : VM) (x y : Nat) : Option VM :=
  if y < REGISTER_COUNT then
    if x < REGISTER_COUNT then
      let regs1 := upd vm.registers 0x0f (if vm.registers x < vm.registers y then 1 else 0)
      if regs1 x ≤ regs1 y then
        some { vm with registers := upd regs1 x (regs1 y - regs1 x) }
      else none
    else none
  else none

/-- `VM::shl_register` (8xyE), vm.rs lines 340-352: the flag test is
`registers[x] & 0b1000_0000 == 1` exactly as in the source, then
`registers[x] = registers[x] << 1` (u8 shift, high bit discarded), Vx re-read
after the flag write. -/
def VM.shl_register (vm : VM) (x _y : Nat) : Option VM :=
  if x < REGISTER_COUNT then
    let regs1 := upd vm.registers 0x0f (if vm.registers x &&& 0b10000000 = 1 then 1 else 0)
    some { vm with registers := upd regs1 x ((regs1 x <<< 1) % 256) }
  else none

/-- `VM::skip_not_equal_register` (9xy0). -/
def VM.skip_not_equal_register (vm : VM) (x y : Nat) : Option VM :=
  if x < REGISTER_COUNT then
    if y < REGISTER_COUNT then
      if vm.registers x ≠ vm.registers y then
        if vm.pc + 2 < 2 ^ 16 then some { vm with pc := vm.pc + 2 } else none
      else some vm
    else none
  else none

/-- `VM::set` (Annn): `i = nnn`. -/
def VM.set (vm : VM) (nnn : Nat) : Option VM := some { vm with i := nnn }

/-- `VM::jump_v0` (Bnnn): `pc = registers[0] as u16 + nnn`, checked u16 add. -/
def VM.jump_v0 (vm : VM) (nnn : Nat) : Option VM :=
  if vm.registers 0 + nnn < 2 ^ 16 then some { vm with pc := vm.registers 0 + nnn } else none

/-- `VM::execute_random` (Cxkk), vm.rs lines 383-391: draw one byte from the
VM-owned random device (advancing its state), AND it with kk, store in Vx. -/
def VM.execute_random (vm : VM) (x kk : Nat) : Option VM :=
  let p := vm.pheriphal.random_device.readU8
  if x < REGISTER_COUNT then
    some { vm with registers := upd vm.registers x (p.1 &&& kk), pheriphal := ⟨p.2⟩ }
  else none

/-- `VM::draw` (Dxyn): `todo!()`, panics. -/
def VM.draw (_vm : VM) (_x _y _n : Nat) : Option VM := none

/-- `VM::key` (Ex9E): `todo!()`, panics. -/
def VM.key (_vm : VM) (_x : Nat) : Option VM := none

/-- `VM::skip_not_key` (ExA1): `todo!()`, panics. -/
def VM.skip_not_key (_vm : VM) (_x : Nat) : Option VM := none

/-- `VM::load_dt` (Fx07): `registers[x] = dt`. -/
def VM.load_dt (vm : VM) (x : Nat) : Option VM :=
  if x < REGISTER_COUNT then
    some { vm with registers := upd vm.registers x vm.dt }
  else none

/-- `VM::load_key` (Fx0A): `todo!()`, panics. -/
def VM.load_key (_vm : VM) (_x : Nat) : Option VM := none

/-- `VM::set_dt` (Fx15): `dt = registers[x]`. -/
def VM.set_dt (vm : VM) (x : Nat) : Option VM :=
  if x < REGISTER_COUNT then some { vm with dt := vm.registers x } else none

/-- `VM::set_st` (Fx18): `st = registers[x]`. -/
def VM.set_st (vm : VM) (x : Nat) : Option VM :=
  if x < REGISTER_COUNT then some { vm with st := vm.registers x } else none

/-- `VM::add_i` (Fx1E): `i = i + registers[x] as u16`, checked u16 add. -/
def VM.add_i (vm : VM) (x : Nat) : Option VM :=
  if x < REGISTER_COUNT then
    if vm.i + vm.registers x < 2 ^ 16 then some { vm with i := vm.i + vm.registers x } else none
  else none

/-- `VM::load_sprite` (Fx29): `todo!()`, panics. -/
def VM.load_sprite (_vm : VM) (_x : Nat) : Option VM := none

/-- `VM::load_bcd` (Fx33): `todo!()`, panics. -/
def VM.load_bcd (_vm : VM) (_x : Nat) : Option VM := none

/-- The loop of `VM::save_registers`, vm.rs lines 484-486:
`for (offset, index) in (0..=x).enumerate() { memory[i + offset] = registers[index] }`
with `offset = index` running from 0 while `cnt` counts the remaining
iterations (x + 1 in total).  Each iteration first reads `registers[offset]`
(panics if the register index is out of range) then writes
`memory[i + offset]` (panics if the address is out of the 4096-byte space);
a panic aborts the loop after the earlier writes have landed. -/
def saveRegsLoop (regs : Nat → Nat) (i : Nat) (mem : Nat → Nat) (off cnt : Nat) :
    Option (Nat → Nat) :=
  match cnt with
  | 0 => some mem
  | Nat.succ c =>
    if off < REGISTER_COUNT then
      if i + off < MEMORY_BYTES then
        saveRegsLoop regs i (upd mem (i + off) (regs off)) (off + 1) c
      else none
    else none

/-- `VM::save_registers` (Fx55), vm.rs lines 479-488: copy registers 0..=x to
memory[i..], no bound check before the loop. -/
def VM.save_registers (vm : VM) (x : Nat) : Option VM :=
  (saveRegsLoop vm.registers vm.i vm.memory 0 (x + 1)).map fun m => { vm with memory := m }

/-- The loop of `VM::load_registers`, vm.rs lines 495-497: the mirror image of
`saveRegsLoop`, reading `memory[i + offset]` first then writing
`registers[offset]`. -/
def loadRegsLoop (mem : Nat → Nat) (i : Nat) (regs : Nat → Nat) (off cnt : Nat) :
    Option (Nat → Nat) :=
  match cnt with
  | 0 => some regs
  | Nat.succ c =>
    if i + off < MEMORY_BYTES then
      if off < REGISTER_COUNT then
        loadRegsLoop mem i (upd regs off (mem (i + off))) (off + 1) c
      else none
    else none

/-- `VM::load_registers` (Fx65), vm.rs lines 490-499: copy memory[i..] to
registers 0..=x, no bound check before the loop. -/
def VM.load_registers (vm : VM) (x : Nat) : Option VM :=
  (loadRegsLoop vm.memory vm.i vm.registers 0 (x + 1)).map fun r => { vm with registers := r }

/-- `VM::execute`, vm.rs lines 98-136: the exhaustive dispatch over the 35
instruction variants. -/
def VM.execute (vm : VM) (op : OpCode) : Option VM :=
  match op with
  | .System nnn => vm.system nnn
  | .ClearScreen => vm.clearscreen
  | .Return => vm.execute_return
  | .Jump nnn => vm.jump nnn
  | .Call nnn => vm.execute_call nnn
  | .SkipEqual x kk => vm.skip_equal x kk
  | .SkipNotEqual x kk => vm.skip_not_equal x kk
  | .SkipEqualRegister x y => vm.skip_equal_register x y
  | .Load x kk => vm.load x kk
  | .Add x kk => vm.add x kk
  | .LoadRegister x y => vm.load_register x y
  | .OrRegister x y => vm.or_register x y
  | .AndRegister x y => vm.and_register x y
  | .XorRegister x y => vm.xor_register x y
  | .AddRegister x y => vm.add_register x y
  | .SubRegister x y => vm.sub_register x y
  | .ShrRegister x y => vm.shr_register x y
  | .SubNotBorrowRegister x y => vm.sub_not_borrow_register x y
  | .ShlRegister x y => vm.shl_register x y
  | .SkipNotEqualRegister x y => vm.skip_not_equal_register x y
  | .Set nnn => vm.set nnn
  | .JumpV0 nnn => vm.jump_v0 nnn
  | .Random x kk => vm.execute_random x kk
  | .Draw x y n => vm.draw x y n
  | .SkipKey x => vm.key x
  | .SkipNotKey x => vm.skip_not_key x
  | .LoadDelayTimer x => vm.load_dt x
  | .LoadKey x => vm.load_key x
  | .SetDelayTimer x => vm.set_dt x
  | .SetSoundTimer x => vm.set_st x
  | .AddI x => vm.add_i x
  | .LoadSprite x => vm.load_sprite x
  | .LoadBCD x => vm.load_bcd x
  | .SaveRegisters x => vm.save_registers x
  | .LoadRegisters x => vm.load_registers x

/-- Run a sequence of already-decoded instructions through `VM::execute`;
`none` as soon as one execution panics. -/
def runOps (ops : List OpCode) (vm : VM) : Option VM :=
  match ops with
  | [] => some vm
  | op :: rest =>
    match vm.execute op with
    | some vm2 => runOps rest vm2
    | none => none

/-- Execute the same instruction n times in a row. -/
def execN (op : OpCode) (n : Nat) (vm : VM) : Option VM :=
  match n with
  | 0 => some vm
  | Nat.succ k =>
    match vm.execute op with
    | some vm2 => execN op k vm2
    | none => none

/-- The register value observed after executing one instruction: the register
j of the resulting state, `none` if execution panicked. -/
def regAfter (vm : VM) (op : OpCode) (j : Nat) : Option Nat :=
  (vm.execute op).map fun w => w.registers j

/-- The experiment step of the round-trip law of the spec: set registers 0
through x (inclusive) to zero, leaving the rest of the state alone. -/
def zeroRegs (x : Nat) (vm : VM) : VM :=
  { vm with registers := fun j => if j ≤ x then 0 else vm.registers j }

end Chip8

namespace Chip8

/-! ## Decoder claims -/

/-- C1: the spec says decode extracts x from bits 11-8, y from bits 7-4,
n from bits 3-0, nnn from the low 12 bits and kk from the low 8 bits.  The
source's masks are wrong (0x0100, 0x0010, 0x001, 0x0111, 0x0011 where the
nibble masks 0x0F00, 0x00F0, 0x000F, 0x0FFF, 0x00FF were intended), so the
word 0x6ABC - whose spec fields are x = 0xA, kk = 0xBC - decodes to
Load(V0, 0x10) instead of Load(V10, 0xBC). -/
theorem c1_decode_field_extraction_bug :
    tryFrom 0x6ABC = Except.ok (OpCode.Load 0 0x10) ∧
      (0x6ABC >>> 8) &&& 0xF = 0xA ∧ 0x6ABC &&& 0xFF = 0xBC := by
  refine ⟨rfl, by decide, by decide⟩

/-- C2: the spec says a word whose secondary discriminator matches no known
instruction of its top-nibble group is a decode fault, never a nearest known
variant.  The word 0x8008 has low-nibble discriminator 8, unknown in group
0x8, yet the decoder computes the discriminator as `value & 0x001` (bit 0
only), sees 0, and returns the known variant LoadRegister(V0, V0). -/
theorem c2_unknown_discriminator_not_faulted :
    tryFrom 0x8008 = Except.ok (OpCode.LoadRegister 0 0) := rfl

/-! ## ALU claims -/

/-- Pre-state for the C3 counterexample: VF = 7, V0 = 1, all else fresh. -/
def vmC3 : VM := { VM.new with registers := upd (upd VM.new.registers 0x0f 7) 0 1 }

/-- C3 counterexample: AddRegister with x = 0xF.  The sum 7 + 1 = 8 does not
exceed 255, so the claim as stated requires VF = 0 after execution, but the
result write lands on VF itself and leaves VF = 8. -/
theorem c3_counterexample :
    vmC3.registers 0x0f + vmC3.registers 0 ≤ 255 ∧
      regAfter vmC3 (OpCode.AddRegister 0x0f 0) 0x0f = some 8 ∧
      regAfter vmC3 (OpCode.AddRegister 0x0f 0) 0x0f ≠ some 0 := by
  refine ⟨by decide, by decide, by decide⟩

/-- C3 (amended: for x ≠ 0xF): AddRegister stores (Vx + Vy) mod 256 into Vx
and sets VF to 1 exactly when Vx + Vy > 255, else 0; when x = 0xF the stored
sum overwrites the flag. -/
theorem c3_add_register_carry (vm : VM) (x y : Nat) (hx : x < 16) (hy : y < 16)
    (hxf : x ≠ 0x0f) :
    ∃ vm2, vm.execute (OpCode.AddRegister x y) = some vm2 ∧
      vm2.registers x = (vm.registers x + vm.registers y) % 256 ∧
      vm2.registers 0x0f = (if 255 < vm.registers x + vm.registers y then 1 else 0) := by
  have hx2 : x < REGISTER_COUNT := hx
  have hy2 : y < REGISTER_COUNT := hy
  simp only [VM.execute, VM.add_register, if_pos hx2, if_pos hy2]
  refine ⟨_, rfl, ?_, ?_⟩
  · simp [upd]
  · simp [upd, Ne.symm hxf]

/-- Pre-state for C3's witness: V1 = 200, V2 = 100. -/
def vmC3w : VM := { VM.new with registers := upd (upd VM.new.registers 1 200) 2 100 }

/-- Witness for C3's amended theorem at x = 1, y = 2 on `vmC3w`. -/
theorem c3_add_register_carry_witness :
    (1 : Nat) < 16 ∧ (2 : Nat) < 16 ∧ (1 : Nat) ≠ 0x0f ∧
      ∃ vm2, vmC3w.execute (OpCode.AddRegister 1 2) = some vm2 ∧
        vm2.registers 1 = (vmC3w.registers 1 + vmC3w.registers 2) % 256 ∧
        vm2.registers 0x0f =
          (if 255 < vmC3w.registers 1 + vmC3w.registers 2 then 1 else 0) :=
  ⟨by decide, by decide, by decide,
    c3_add_register_carry vmC3w 1 2 (by decide) (by decide) (by decide)⟩

/-- Pre-state for C4: V0 = 0, V1 = 1 (fresh VM with V1 set). -/
def vmC4 : VM := { VM.new with registers := upd VM.new.registers 1 1 }

/-- C4: the claim says both subtraction instructions wrap on underflow and
never trap.  Both handlers subtract with the plain checked u8 `-` operator,
which panics on underflow (modelled as `none`): SubRegister with V0 = 0,
V1 = 1 computes 0 - 1 and panics instead of storing 255, and
SubNotBorrowRegister with the operands the other way round does the same. -/
theorem c4_sub_underflow_traps :
    vmC4.execute (OpCode.SubRegister 0 1) = none ∧
      vmC4.execute (OpCode.SubNotBorrowRegister 1 0) = none := ⟨rfl, rfl⟩

/-- Pre-state for C5: V0 = 0x80 (most-significant bit set). -/
def vmC5 : VM := { VM.new with registers := upd VM.new.registers 0 0x80 }

/-- C5: the claim says ShlRegister sets VF to the pre-shift most-significant
bit.  The source tests `registers[x] & 0b1000_0000 == 1`, which is never true
(the mask result is 0 or 128), so VF is 0 even for V0 = 0x80 whose MSB is 1.
The shifted result itself (0x80 << 1 truncated = 0) is stored as claimed. -/
theorem c5_shl_flag_always_zero :
    vmC5.registers 0 &&& 0b10000000 = 0b10000000 ∧
      regAfter vmC5 (OpCode.ShlRegister 0 0) 0x0f = some 0 ∧
      regAfter vmC5 (OpCode.ShlRegister 0 0) 0 = some 0 := by
  refine ⟨by decide, by decide, by decide⟩

/-- Pre-state for C6: V0 = 255. -/
def vmC6 : VM := { VM.new with registers := upd VM.new.registers 0 255 }

/-- C6: the claim says Add (register plus immediate) wraps modulo 256.  The
handler is `registers[x] += kk`, a checked u8 addition that panics on
overflow: with V0 = 255 and kk = 1 execution panics instead of storing 0. -/
theorem c6_add_immediate_overflow_traps :
    vmC6.execute (OpCode.Add 0 1) = none := rfl

/-! ## Stack and block-transfer claims -/

/-- C7: the claim says 16 consecutive Calls succeed from a fresh state and a
17th raises a typed stack fault, and Return on an empty stack raises a typed
stack fault.  The code performs no depth check at all: Call increments sp
first and pushes to stack[sp], so slot 0 is never used, only 15 Calls can
succeed, and the 16th panics indexing stack[16]; Return on a fresh state
panics on the u8 underflow of `sp -= 1`.  Neither path produces a typed
fault. -/
theorem c7_stack_discipline_bug :
    (execN (OpCode.Call 0x300) 15 VM.new).isSome = true ∧
      execN (OpCode.Call 0x300) 16 VM.new = none ∧
      VM.new.execute OpCode.Return = none := by
  refine ⟨by decide, rfl, rfl⟩

/-- Pre-state for C8: a fresh VM with I = 4095, so a two-byte transfer
crosses the end of memory. -/
def vmC8 : VM := { VM.new with i := 4095 }

/-- C8: the claim says an out-of-range block transfer returns a memory-range
fault with no partial writes.  SaveRegisters(1) with I = 4095 panics
(index out of bounds at memory[4096]) instead of returning a typed fault,
and the first loop iteration has already written V0 into memory[4095]
before the panic: the bound is not checked before mutation. -/
theorem c8_block_transfer_bug :
    vmC8.execute (OpCode.SaveRegisters 1) = none ∧
      (saveRegsLoop vmC8.registers vmC8.i vmC8.memory 0 1).map (fun m => m 4095)
        = some (vmC8.registers 0) := ⟨rfl, rfl⟩

/-- Every successful run of the save loop writes registers off..off+cnt-1 to
memory[i+off..] and leaves all other addresses unchanged. -/
theorem saveRegsLoop_ok (regs : Nat → Nat) (i : Nat) :
    ∀ (cnt off : Nat) (mem : Nat → Nat), off + cnt ≤ 16 → i + off + cnt ≤ 4096 →
      ∃ m2, saveRegsLoop regs i mem off cnt = some m2 ∧
        (∀ a, a < i + off ∨ i + off + cnt ≤ a → m2 a = mem a) ∧
        (∀ k, off ≤ k → k < off + cnt → m2 (i + k) = regs k) := by
  intro cnt
  induction cnt with
  | zero =>
    intro off mem _ _
    exact ⟨mem, rfl, fun a _ => rfl, fun k h1 h2 => absurd h2 (by omega)⟩
  | succ c ih =>
    intro off mem hr hm
    have hc16 : REGISTER_COUNT = 16 := rfl
    have hc4096 : MEMORY_BYTES = 4096 := rfl
    have h1 : off < REGISTER_COUNT := by omega
    have h2 : i + off < MEMORY_BYTES := by omega
    obtain ⟨m2, hrun, hframe, hval⟩ := ih (off + 1) (upd mem (i + off) (regs off))
      (by omega) (by omega)
    refine ⟨m2, ?_, ?_, ?_⟩
    · show (if off < REGISTER_COUNT then
          if i + off < MEMORY_BYTES then
            saveRegsLoop regs i (upd mem (i + off) (regs off)) (off + 1) c
          else none
        else none) = some m2
      rw [if_pos h1, if_pos h2, hrun]
    · intro a ha
      rw [hframe a (by omega), upd_other _ _ _ _ (by omega)]
    · intro k hk1 hk2
      rcases Nat.eq_or_lt_of_le hk1 with he | hlt
      · rw [← he, hframe (i + off) (by omega), upd_same]
      · exact hval k (by omega) (by omega)

/-- Every successful run of the load loop writes memory[i+off..] into
registers off..off+cnt-1 and leaves all other registers unchanged. -/
theorem loadRegsLoop_ok (mem : Nat → Nat) (i : Nat) :
    ∀ (cnt off : Nat) (regs : Nat → Nat), off + cnt ≤ 16 → i + off + cnt ≤ 4096 →
      ∃ r2, loadRegsLoop mem i regs off cnt = some r2 ∧
        (∀ j, j < off ∨ off + cnt ≤ j → r2 j = regs j) ∧
        (∀ k, off ≤ k → k < off + cnt → r2 k = mem (i + k)) := by
  intro cnt
  induction cnt with
  | zero =>
    intro off regs _ _
    exact ⟨regs, rfl, fun j _ => rfl, fun k h1 h2 => absurd h2 (by omega)⟩
  | succ c ih =>
    intro off regs hr hm
    have hc16 : REGISTER_COUNT = 16 := rfl
    have hc4096 : MEMORY_BYTES = 4096 := rfl
    have h1 : i + off < MEMORY_BYTES := by omega
    have h2 : off < REGISTER_COUNT := by omega
    obtain ⟨r2, hrun, hframe, hval⟩ := ih (off + 1) (upd regs off (mem (i + off)))
      (by omega) (by omega)
    refine ⟨r2, ?_, ?_, ?_⟩
    · show (if i + off < MEMORY_BYTES then
          if off < REGISTER_COUNT then
            loadRegsLoop mem i (upd regs off (mem (i + off))) (off + 1) c
          else none
        else none) = some r2
      rw [if_pos h1, if_pos h2, hrun]
    · intro j hj
      rw [hframe j (by omega), upd_other _ _ _ _ (by omega)]
    · intro k hk1 hk2
      rcases Nat.eq_or_lt_of_le hk1 with he | hlt
      · rw [← he, hframe off (by omega), upd_same]
      · exact hval k (by omega) (by omega)

/-- C9: for every x ≤ 15 and every state whose range I..I+x lies inside the
4096-byte memory, SaveRegisters(x) succeeds and writes exactly the x + 1
bytes at addresses I..I+x (registers 0..x, all other addresses untouched),
and after zeroing registers 0..x a LoadRegisters(x) succeeds and restores
registers 0..x to their original values, touching no register above x. -/
theorem c9_save_load_roundtrip (vm : VM) (x : Nat) (hx : x ≤ 15)
    (hi : vm.i + x ≤ 4095) :
    ∃ vm1 vm3, vm.execute (OpCode.SaveRegisters x) = some vm1 ∧
      (zeroRegs x vm1).execute (OpCode.LoadRegisters x) = some vm3 ∧
      (∀ k, k ≤ x → vm1.memory (vm.i + k) = vm.registers k) ∧
      (∀ a, a < vm.i ∨ vm.i + x < a → vm1.memory a = vm.memory a) ∧
      (∀ k, k ≤ x → vm3.registers k = vm.registers k) ∧
      (∀ j, x < j → vm3.registers j = (zeroRegs x vm1).registers j) := by
  obtain ⟨m2, hsav, hmframe, hmval⟩ :=
    saveRegsLoop_ok vm.registers vm.i (x + 1) 0 vm.memory (by omega) (by omega)
  obtain ⟨r2, hload, hrframe, hrval⟩ :=
    loadRegsLoop_ok m2 vm.i (x + 1) 0 (zeroRegs x { vm with memory := m2 }).registers
      (by omega) (by omega)
  have hexec1 : vm.execute (OpCode.SaveRegisters x) = some { vm with memory := m2 } := by
    have h0 : vm.execute (OpCode.SaveRegisters x)
        = (saveRegsLoop vm.registers vm.i vm.memory 0 (x + 1)).map
          (fun m => { vm with memory := m }) := rfl
    rw [h0, hsav, Option.map_some']
  have hexec2 : (zeroRegs x { vm with memory := m2 }).execute (OpCode.LoadRegisters x)
      = some { zeroRegs x { vm with memory := m2 } with registers := r2 } := by
    have h0 : (zeroRegs x { vm with memory := m2 }).execute (OpCode.LoadRegisters x)
        = (loadRegsLoop m2 vm.i (zeroRegs x { vm with memory := m2 }).registers 0
            (x + 1)).map
          (fun r => { zeroRegs x { vm with memory := m2 } with registers := r }) := rfl
    rw [h0, hload, Option.map_some']
  refine ⟨{ vm with memory := m2 },
    { zeroRegs x { vm with memory := m2 } with registers := r2 },
    hexec1, hexec2, ?_, ?_, ?_, ?_⟩
  · intro k hk
    exact hmval k (by omega) (by omega)
  · intro a ha
    exact hmframe a (by omega)
  · intro k hk
    show r2 k = vm.registers k
    rw [hrval k (by omega) (by omega)]
    exact hmval k (by omega) (by omega)
  · intro j hj
    exact hrframe j (by omega)

/-- Pre-state for C9's witness: I = 0x300, V0 = 11, V2 = 22. -/
def vmC9w : VM :=
  { VM.new with i := 0x300, registers := upd (upd VM.new.registers 0 11) 2 22 }

/-- Witness for C9 at x = 3 on `vmC9w`. -/
theorem c9_save_load_roundtrip_witness :
    (3 : Nat) ≤ 15 ∧ vmC9w.i + 3 ≤ 4095 ∧
      ∃ vm1 vm3, vmC9w.execute (OpCode.SaveRegisters 3) = some vm1 ∧
        (zeroRegs 3 vm1).execute (OpCode.LoadRegisters 3) = some vm3 ∧
        (∀ k, k ≤ 3 → vm1.memory (vmC9w.i + k) = vmC9w.registers k) ∧
        (∀ a, a < vmC9w.i ∨ vmC9w.i + 3 < a → vm1.memory a = vmC9w.memory a) ∧
        (∀ k, k ≤ 3 → vm3.registers k = vmC9w.registers k) ∧
        (∀ j, 3 < j → vm3.registers j = (zeroRegs 3 vm1).registers j) :=
  ⟨by decide, by decide, c9_save_load_roundtrip vmC9w 3 (by decide) (by decide)⟩

/-! ## Determinism claim -/

/-- C10: VM::new owns its random source internally, seeded with the fixed
constant 42 (not injected by any caller), and execution consumes no input
other than the instruction itself and the VM state; hence any two freshly
created VMs driven by the same instruction sequence - Random instructions
included - reach identical outcomes. -/
theorem c10_fresh_vms_deterministic (vm1 vm2 : VM) (h1 : vm1 = VM.new)
    (h2 : vm2 = VM.new) (ops : List OpCode) :
    vm1.pheriphal.random_device = randomDefault 42 ∧ runOps ops vm1 = runOps ops vm2 := by
  subst h1
  subst h2
  exact ⟨rfl, rfl⟩

/-- Witness for C10: two fresh VMs running a Random followed by a Load. -/
theorem c10_fresh_vms_deterministic_witness :
    VM.new = VM.new ∧ VM.new = VM.new ∧
      (VM.new.pheriphal.random_device = randomDefault 42 ∧
        runOps [OpCode.Random 0 255, OpCode.Load 1 3] VM.new
          = runOps [OpCode.Random 0 255, OpCode.Load 1 3] VM.new) :=
  ⟨rfl, rfl, c10_fresh_vms_deterministic VM.new VM.new rfl rfl
    [OpCode.Random 0 255, OpCode.Load 1 3]⟩

end Chip8
